import Mathlib

/-
Verification of the offline content cache and synchronization layer of the
Ranobe reading application.  The definitions below are a shallow embedding of
the handlers in src/App.tsx and of the chapter-text fetch in
src/services/geminiService.ts.  Browser-only transients with no net effect on
the persisted state (the `isReaderLoading` flag, the `activeDownloads` set,
which is added to and removed from within a single handler, the timed removal
of toasts, and haptic feedback) are omitted; everything else follows the
source line by line.  External effects (the network fetch results, whether a
localStorage write hits the quota, the confirm dialog) are passed in as
explicit parameters, as is the clock value used for `savedAt`.
-/

namespace Ranobe

/-- Kind of a user notification, from ToastMessage.type in src/types.ts. -/
inductive ToastType
  | success
  | error
  | info
  | loading
deriving DecidableEq, Repr

/-- A user notification (ToastMessage in src/types.ts); the timestamp id used
for timed removal is a presentation detail and is dropped. -/
structure Toast where
  message : String
  type : ToastType
deriving DecidableEq, Repr

/-- ViewState from src/types.ts. -/
inductive ViewState
  | library
  | search
  | reader
deriving DecidableEq, Repr

/-- The status field of a Novel in src/types.ts. -/
inductive NovelStatus
  | Ongoing
  | Completed
deriving DecidableEq, Repr

/-- Novel from src/types.ts. -/
structure Novel where
  id : String
  title : String
  author : String
  description : String
  coverUrl : String
  tags : List String
  status : NovelStatus
  lastUpdated : Option String := none
deriving DecidableEq, Repr

/-- ChapterMetadata from src/types.ts. -/
structure ChapterMetadata where
  id : String
  novelId : String
  title : String
  chapterNumber : Nat
deriving DecidableEq, Repr

/-- LibraryItem from src/types.ts. -/
structure LibraryItem extends Novel where
  downloaded : Bool
  totalChapters : Nat
  savedAt : Nat
  chapters : List ChapterMetadata
  lastReadChapterId : Option String := none
deriving DecidableEq, Repr

/-- The browser localStorage, modelled as an association list from string keys
to string values; lookups read the first binding of a key. -/
abbrev KV := List (String × String)

/-- localStorage.getItem: the stored value, or none. -/
def kvGet (st : KV) (k : String) : Option String :=
  (st.find? (fun p => p.1 == k)).map Prod.snd

/-- localStorage.setItem in the case where the quota is not exceeded.  A
quota-exceeded write throws and leaves the store unchanged; callers below
branch on an explicit quota flag and keep the store untouched in that case. -/
def kvSet (st : KV) (k v : String) : KV :=
  (k, v) :: st.filter (fun p => p.1 != k)

/-- localStorage.removeItem. -/
def kvRemove (st : KV) (k : String) : KV :=
  st.filter (fun p => p.1 != k)

/-- JavaScript truthiness of a nullable string: true iff present and
nonempty.  App.tsx tests cached values with plain `if (content)`. -/
def truthyOpt (o : Option String) : Bool :=
  o.getD "" != ""

/-- The localStorage key for cached chapter text
(template `novel_content_(id)_ch(n)` in App.tsx). -/
def contentKey (id : String) (n : Nat) : String :=
  "novel_content_" ++ id ++ "_ch" ++ toString n

/-- The localStorage key for a saved scroll position
(template `scroll_(id)_ch(n)` in App.tsx and Reader.tsx). -/
def scrollKey (id : String) (n : Nat) : String :=
  "scroll_" ++ id ++ "_ch" ++ toString n

/-- The localStorage key for a cached generated image
(template `img_(id)_ch(n)` in App.tsx and Reader.tsx). -/
def imgKey (id : String) (n : Nat) : String :=
  "img_" ++ id ++ "_ch" ++ toString n

/-- The App component state relevant to the cache and synchronization layer:
the view, the library list, the persistent store, the reading state, the toast
list and the connectivity flag. -/
structure AppState where
  view : ViewState
  library : List LibraryItem
  store : KV
  activeNovelId : Option String
  activeChapterId : Option String
  activeChapterContent : String
  toasts : List Toast
  isOnline : Bool
deriving DecidableEq, Repr

/-- Result of handleDownloadChapter: the returned boolean, the store after the
call, the toasts the call appended, and whether the provider fetch
(downloadChapterContent) was invoked. -/
structure DLResult where
  success : Bool
  store : KV
  toasts : List Toast
  fetchCalled : Bool
deriving DecidableEq, Repr

/-- handleDownloadChapter from src/App.tsx (lines 173-194).  `f` is the
outcome of the provider fetch `downloadChapterContent(novel.title,
chapter.chapterNumber, chapter.title)`; `q` tells whether the
localStorage.setItem of the fetched content throws QuotaExceeded. -/
def handleDownloadChapter (store : KV) (novel : LibraryItem)
    (chapter : ChapterMetadata) (silent : Bool)
    (f : Except Unit String) (q : Bool) : DLResult :=
  let key := contentKey novel.id chapter.chapterNumber
  if truthyOpt (kvGet store key) then
    { success := true, store := store, toasts := [], fetchCalled := false }
  else
    let t0 : List Toast :=
      if silent then []
      else [⟨"DOWNLOADING CHAPTER " ++ toString chapter.chapterNumber ++ "...",
             ToastType.loading⟩]
    match f with
    | Except.ok content =>
        if q then
          { success := false, store := store,
            toasts := t0 ++ [⟨"STORAGE FULL. CLEAR CACHE.", ToastType.error⟩],
            fetchCalled := true }
        else
          { success := true, store := kvSet store key content,
            toasts := t0 ++
              (if silent then []
               else [⟨"DOWNLOAD COMPLETE.", ToastType.success⟩]),
            fetchCalled := true }
    | Except.error _ =>
        { success := false, store := store,
          toasts := t0 ++
            (if silent then [] else [⟨"DOWNLOAD FAILED.", ToastType.error⟩]),
          fetchCalled := true }

/-- Result of handleOpenReader and the navigation handlers: the new state,
whether the provider fetch was invoked, and whether the final
`if (content)` block ran (reader opened and last-read state updated). -/
structure OpenResult where
  state : AppState
  fetchCalled : Bool
  opened : Bool
deriving DecidableEq, Repr

/-- The tail of handleOpenReader (App.tsx lines 234-243): record the last-read
chapter, move the item to the head of the library, and open the reader. -/
def finishOpen (s : AppState) (novel : LibraryItem) (target : ChapterMetadata)
    (content : String) : AppState :=
  { s with
    library := { novel with lastReadChapterId := some target.id } ::
      s.library.filter (fun n => n.id != novel.id),
    activeNovelId := some novel.id,
    activeChapterId := some target.id,
    activeChapterContent := content,
    view := ViewState.reader }

/-- Target-chapter resolution in handleOpenReader (App.tsx lines 204-206):
`chapterId ? chapters.find(c.id === chapterId) : chapters[0]`, with
JavaScript truthiness on the optional id. -/
def resolveTarget (novel : LibraryItem) (chapterId : Option String) :
    Option ChapterMetadata :=
  if truthyOpt chapterId then
    novel.chapters.find? (fun c => c.id == chapterId.getD "")
  else
    novel.chapters.head?

/-- The cache-or-fetch body of handleOpenReader (App.tsx lines 213-243), run
once the library item and target chapter have been resolved. -/
def openChapter (s : AppState) (novel : LibraryItem) (target : ChapterMetadata)
    (f : Except Unit String) (q : Bool) : OpenResult :=
  let key := contentKey novel.id target.chapterNumber
  let c0 := kvGet s.store key
  if truthyOpt c0 then
    { state := finishOpen s novel target (c0.getD ""),
      fetchCalled := false, opened := true }
  else if s.isOnline then
    let dl := handleDownloadChapter s.store novel target false f q
    let s1 := { s with store := dl.store, toasts := s.toasts ++ dl.toasts }
    if dl.success then
      let c1 := kvGet s1.store key
      if truthyOpt c1 then
        { state := finishOpen s1 novel target (c1.getD ""),
          fetchCalled := dl.fetchCalled, opened := true }
      else
        { state := s1, fetchCalled := dl.fetchCalled, opened := false }
    else
      { state := s1, fetchCalled := dl.fetchCalled, opened := false }
  else
    { state := { s with toasts := s.toasts ++
        [⟨"OFFLINE. CHAPTER MISSING.", ToastType.error⟩] },
      fetchCalled := false, opened := false }

/-- The corrupted-or-empty early exit of handleOpenReader (App.tsx
lines 199-202). -/
def corruptedExit (s : AppState) : AppState :=
  { s with toasts := s.toasts ++
      [⟨"DATA CORRUPTED OR EMPTY.", ToastType.error⟩] }

/-- handleOpenReader from src/App.tsx (lines 197-244). -/
def handleOpenReader (s : AppState) (novelId : String)
    (chapterId : Option String) (f : Except Unit String) (q : Bool) :
    OpenResult :=
  match s.library.find? (fun n => n.id == novelId) with
  | none =>
      { state := corruptedExit s, fetchCalled := false, opened := false }
  | some novel =>
      if novel.chapters.length = 0 then
        { state := corruptedExit s, fetchCalled := false, opened := false }
      else
        match resolveTarget novel chapterId with
        | none => { state := s, fetchCalled := false, opened := false }
        | some target => openChapter s novel target f q

/-- Result of handleAddToLibrary: the new state and whether the best-effort
first-chapter download invoked the provider fetch. -/
structure AddResult where
  state : AppState
  fetchCalled : Bool
deriving DecidableEq, Repr

/-- Construction of the new LibraryItem in handleAddToLibrary (App.tsx
lines 146-153); `now` is the Date.now() value used for savedAt. -/
def mkLibraryItem (novel : Novel) (chapters : List ChapterMetadata)
    (now : Nat) : LibraryItem :=
  { toNovel := novel,
    downloaded := true,
    chapters := chapters,
    lastReadChapterId := chapters.head?.map (fun c => c.id),
    totalChapters := chapters.length,
    savedAt := now }

/-- handleAddToLibrary from src/App.tsx (lines 137-171).  `chapterListResult`
is the outcome of `getChapterList(novel.title)`; `f` and `q` feed the
best-effort silent download of the first chapter. -/
def handleAddToLibrary (s : AppState) (novel : Novel) (now : Nat)
    (chapterListResult : Except Unit (List ChapterMetadata))
    (f : Except Unit String) (q : Bool) : AddResult :=
  if !s.isOnline then
    { state := { s with toasts := s.toasts ++
        [⟨"NETWORK REQUIRED FOR SYNC.", ToastType.error⟩] },
      fetchCalled := false }
  else
    let t0 : List Toast := [⟨"SYNCING METADATA...", ToastType.loading⟩]
    match chapterListResult with
    | Except.error _ =>
        { state := { s with toasts := s.toasts ++ t0 ++
            [⟨"SYNC FAILED. CHECK CONNECTION.", ToastType.error⟩] },
          fetchCalled := false }
    | Except.ok chapters =>
        let newItem := mkLibraryItem novel chapters now
        let s1 := { s with
          library := newItem :: s.library.filter (fun n => n.id != novel.id),
          toasts := s.toasts ++ t0 ++
            [⟨"NOVEL ADDED TO DATABASE.", ToastType.success⟩] }
        match chapters with
        | [] => { state := s1, fetchCalled := false }
        | c0 :: _ =>
            let dl := handleDownloadChapter s1.store newItem c0 true f q
            { state := { s1 with
                store := dl.store,
                toasts := s1.toasts ++ dl.toasts },
              fetchCalled := dl.fetchCalled }

/-- handleNextChapter from src/App.tsx (lines 246-258).  findIndex returning
-1 is modelled by findIdx? returning none. -/
def handleNextChapter (s : AppState) (f : Except Unit String) (q : Bool) :
    OpenResult :=
  match s.activeNovelId with
  | none => { state := s, fetchCalled := false, opened := false }
  | some nid =>
    match s.library.find? (fun n => n.id == nid) with
    | none => { state := s, fetchCalled := false, opened := false }
    | some novel =>
      if truthyOpt s.activeChapterId = false then
        { state := s, fetchCalled := false, opened := false }
      else
        let cid := s.activeChapterId.getD ""
        let endSignal : OpenResult :=
          { state := { s with toasts := s.toasts ++
              [⟨"END OF RECORD REACHED.", ToastType.info⟩] },
            fetchCalled := false, opened := false }
        match novel.chapters.findIdx? (fun c => c.id == cid) with
        | some idx =>
            if idx < novel.chapters.length - 1 then
              match novel.chapters[idx + 1]? with
              | some nextCh => handleOpenReader s novel.id (some nextCh.id) f q
              | none => { state := s, fetchCalled := false, opened := false }
            else endSignal
        | none => endSignal

/-- handlePrevChapter from src/App.tsx (lines 260-272). -/
def handlePrevChapter (s : AppState) (f : Except Unit String) (q : Bool) :
    OpenResult :=
  match s.activeNovelId with
  | none => { state := s, fetchCalled := false, opened := false }
  | some nid =>
    match s.library.find? (fun n => n.id == nid) with
    | none => { state := s, fetchCalled := false, opened := false }
    | some novel =>
      if truthyOpt s.activeChapterId = false then
        { state := s, fetchCalled := false, opened := false }
      else
        let cid := s.activeChapterId.getD ""
        let startSignal : OpenResult :=
          { state := { s with toasts := s.toasts ++
              [⟨"START OF RECORD.", ToastType.info⟩] },
            fetchCalled := false, opened := false }
        match novel.chapters.findIdx? (fun c => c.id == cid) with
        | some idx =>
            if 0 < idx then
              match novel.chapters[idx - 1]? with
              | some prevCh => handleOpenReader s novel.id (some prevCh.id) f q
              | none => { state := s, fetchCalled := false, opened := false }
            else startSignal
        | none => startSignal

/-- The per-chapter cache purge in deleteFromLibrary (App.tsx lines 279-283):
remove the content, scroll and image entries of one chapter. -/
def purgeChapterKeys (st : KV) (id : String) (ch : ChapterMetadata) : KV :=
  kvRemove
    (kvRemove (kvRemove st (contentKey id ch.chapterNumber))
      (scrollKey id ch.chapterNumber))
    (imgKey id ch.chapterNumber)

/-- deleteFromLibrary from src/App.tsx (lines 274-288); `confirmed` is the
outcome of the window.confirm dialog. -/
def deleteFromLibrary (s : AppState) (id : String) (confirmed : Bool) :
    AppState :=
  if !confirmed then s
  else
    let store' :=
      match s.library.find? (fun n => n.id == id) with
      | some novel =>
          novel.chapters.foldl (fun st ch => purgeChapterKeys st id ch) s.store
      | none => s.store
    { s with
      store := store',
      library := s.library.filter (fun n => n.id != id),
      toasts := s.toasts ++ [⟨"ENTRY PURGED.", ToastType.success⟩] }

/-- The backtick character, used by the markdown-fence stripping in
geminiService.ts. -/
def btick : Char := Char.ofNat 96

/-- The leading-fence strip in downloadChapterContent
(`replace(/^(fence)(markdown|md)?\s*/i, "")` in geminiService.ts line 224):
drop a leading triple backtick, an optional case-insensitive language tag,
and following whitespace. -/
def stripLeadingFence (cs : List Char) : List Char :=
  match cs with
  | c1 :: c2 :: c3 :: rest =>
      if c1 = btick ∧ c2 = btick ∧ c3 = btick then
        let rest2 :=
          if (rest.take 8).map Char.toLower = "markdown".toList then
            rest.drop 8
          else if (rest.take 2).map Char.toLower = "md".toList then
            rest.drop 2
          else rest
        rest2.dropWhile (fun c => c.isWhitespace)
      else cs
  | _ => cs

/-- The trailing-fence strip, on the reversed character list: drop a trailing
triple backtick and the whitespace before it
(`replace(/\s*(fence)$/, "")` in geminiService.ts line 224). -/
def stripTrailingFenceRev (r : List Char) : List Char :=
  match r with
  | c1 :: c2 :: c3 :: rest =>
      if c1 = btick ∧ c2 = btick ∧ c3 = btick then
        rest.dropWhile (fun c => c.isWhitespace)
      else r
  | _ => r

/-- Both markdown-fence strips of downloadChapterContent, composed as in
geminiService.ts line 224. -/
def stripCodeFences (s : String) : String :=
  String.mk ((stripTrailingFenceRev (stripLeadingFence s.data).reverse).reverse)

/-- downloadChapterContent from src/services/geminiService.ts
(lines 203-231).  `apiKey` is process.env.API_KEY (getAiClient returns null
without it); `respText` is the model response's nullable text
(`response.text || ""`).  Errors carry the thrown message.  String.length
counts code points where JavaScript counts UTF-16 units; the two agree on the
texts at issue. -/
def downloadChapterContent (apiKey : Option String) (novelTitle : String)
    (chapterNumber : Nat) (chapterTitle : String)
    (respText : Option String) : Except String String :=
  match apiKey with
  | none => Except.error "API_KEY_MISSING"
  | some _ =>
      let text := stripCodeFences (respText.getD "")
      if text = "" ∨ text.length < 100 then
        Except.error "Generated content too short or empty."
      else
        Except.ok text

/-- A sample chapter, for concrete evaluations. -/
def sampleChapter : ChapterMetadata :=
  { id := "1", novelId := "n1", title := "Ch1", chapterNumber := 1 }

/-- A sample novel, for concrete evaluations. -/
def sampleNovel : Novel :=
  { id := "n1", title := "T", author := "A", description := "D",
    coverUrl := "http://c", tags := ["Novel"], status := NovelStatus.Ongoing }

/-- A sample installed library item owning sampleChapter. -/
def sampleItem : LibraryItem :=
  { toNovel := sampleNovel, downloaded := true, totalChapters := 1,
    savedAt := 0, chapters := [sampleChapter], lastReadChapterId := some "1" }

/-- A sample online app state whose library holds sampleItem and whose cache
is empty. -/
def sampleState : AppState :=
  { view := ViewState.library, library := [sampleItem], store := [],
    activeNovelId := none, activeChapterId := none,
    activeChapterContent := "", toasts := [], isOnline := true }

/-- sampleState, offline. -/
def sampleOffState : AppState :=
  { sampleState with isOnline := false }

/-- sampleState with the text of sampleChapter cached. -/
def sampleCachedState : AppState :=
  { sampleState with store := [(contentKey "n1" 1, "CACHED TEXT")] }

/-- sampleCachedState, currently reading sampleChapter (which is both the
first and the last chapter of sampleItem). -/
def sampleReadState : AppState :=
  { sampleCachedState with
    activeNovelId := some "n1",
    activeChapterId := some "1" }

/-- sampleState with content, scroll and image entries cached for
sampleChapter. -/
def sampleLoadedState : AppState :=
  { sampleState with store :=
      [(contentKey "n1" 1, "X"), (scrollKey "n1" 1, "5"),
       (imgKey "n1" 1, "img")] }

/-- Looking a key up after removing it yields nothing. -/
theorem kvGet_kvRemove_self (st : KV) (k : String) :
    kvGet (kvRemove st k) k = none := by
  have h : (kvRemove st k).find? (fun p => p.1 == k) = none := by
    unfold kvRemove
    rw [List.find?_eq_none]
    intro x hx
    have hmem := (List.mem_filter.mp hx).2
    simp only [bne_iff_ne, ne_eq] at hmem
    simp [hmem]
  simp [kvGet, h]

/-- Removing a key preserves the absence of any key. -/
theorem kvGet_kvRemove_of_none (st : KV) (k k' : String)
    (h : kvGet st k = none) : kvGet (kvRemove st k') k = none := by
  have h0 : st.find? (fun p => p.1 == k) = none := by
    cases hf : st.find? (fun p => p.1 == k) with
    | none => rfl
    | some v => rw [kvGet, hf] at h; simp at h
  have h1 : (kvRemove st k').find? (fun p => p.1 == k) = none := by
    rw [List.find?_eq_none] at h0 ⊢
    intro x hx
    exact h0 x (List.mem_of_mem_filter hx)
  simp [kvGet, h1]

/-- Purging one chapter's keys preserves the absence of any key. -/
theorem purgeChapterKeys_of_none (st : KV) (id : String)
    (ch : ChapterMetadata) (k : String) (h : kvGet st k = none) :
    kvGet (purgeChapterKeys st id ch) k = none := by
  unfold purgeChapterKeys
  exact kvGet_kvRemove_of_none _ _ _
    (kvGet_kvRemove_of_none _ _ _ (kvGet_kvRemove_of_none _ _ _ h))

/-- Purging one chapter's keys removes its content, scroll and image
entries. -/
theorem purgeChapterKeys_removes (st : KV) (id : String)
    (ch : ChapterMetadata) :
    kvGet (purgeChapterKeys st id ch) (contentKey id ch.chapterNumber) = none ∧
    kvGet (purgeChapterKeys st id ch) (scrollKey id ch.chapterNumber) = none ∧
    kvGet (purgeChapterKeys st id ch) (imgKey id ch.chapterNumber) = none := by
  unfold purgeChapterKeys
  refine ⟨?_, ?_, kvGet_kvRemove_self _ _⟩
  · exact kvGet_kvRemove_of_none _ _ _
      (kvGet_kvRemove_of_none _ _ _ (kvGet_kvRemove_self _ _))
  · exact kvGet_kvRemove_of_none _ _ _ (kvGet_kvRemove_self _ _)

/-- The purge fold of deleteFromLibrary preserves the absence of any key. -/
theorem purgeFold_of_none (l : List ChapterMetadata) (st : KV)
    (id k : String) (h : kvGet st k = none) :
    kvGet (l.foldl (fun st ch => purgeChapterKeys st id ch) st) k = none := by
  induction l generalizing st with
  | nil => exact h
  | cons a t ih =>
      exact ih (purgeChapterKeys st id a) (purgeChapterKeys_of_none st id a k h)

/-- After the purge fold of deleteFromLibrary, every listed chapter's
content, scroll and image entries are absent. -/
theorem purgeFold_removes (l : List ChapterMetadata) (st : KV) (id : String)
    (ch : ChapterMetadata) (hmem : ch ∈ l) :
    kvGet (l.foldl (fun st ch => purgeChapterKeys st id ch) st)
      (contentKey id ch.chapterNumber) = none ∧
    kvGet (l.foldl (fun st ch => purgeChapterKeys st id ch) st)
      (scrollKey id ch.chapterNumber) = none ∧
    kvGet (l.foldl (fun st ch => purgeChapterKeys st id ch) st)
      (imgKey id ch.chapterNumber) = none := by
  induction l generalizing st with
  | nil => cases hmem
  | cons a t ih =>
      rcases List.mem_cons.mp hmem with rfl | hmem'
      · obtain ⟨h1, h2, h3⟩ := purgeChapterKeys_removes st id ch
        exact ⟨purgeFold_of_none t _ id _ h1,
               purgeFold_of_none t _ id _ h2,
               purgeFold_of_none t _ id _ h3⟩
      · exact ih (purgeChapterKeys st id a) hmem'

/-- Claim C2: for a (novel, chapter) with no cached text, if connectivity is
false then handleOpenReader fails with the offline-missing notification
(distinct from the generic offline message and from the provider-failure
message), the reader view is not opened, no fetch happens, and the library,
store and reading state are unchanged. -/
theorem claim2_offline_missing (s : AppState) (novelId : String)
    (chapterId : Option String) (novel : LibraryItem)
    (target : ChapterMetadata) (f : Except Unit String) (q : Bool)
    (hoff : s.isOnline = false)
    (hfind : s.library.find? (fun n => n.id == novelId) = some novel)
    (hne : novel.chapters.length ≠ 0)
    (htgt : resolveTarget novel chapterId = some target)
    (hmiss : truthyOpt
      (kvGet s.store (contentKey novel.id target.chapterNumber)) = false) :
    (handleOpenReader s novelId chapterId f q).state.view = s.view ∧
    (handleOpenReader s novelId chapterId f q).opened = false ∧
    (handleOpenReader s novelId chapterId f q).fetchCalled = false ∧
    (handleOpenReader s novelId chapterId f q).state.library = s.library ∧
    (handleOpenReader s novelId chapterId f q).state.store = s.store ∧
    (handleOpenReader s novelId chapterId f q).state.activeChapterContent =
      s.activeChapterContent ∧
    (handleOpenReader s novelId chapterId f q).state.toasts =
      s.toasts ++ [⟨"OFFLINE. CHAPTER MISSING.", ToastType.error⟩] ∧
    ("OFFLINE. CHAPTER MISSING." : String) ≠ "DOWNLOAD FAILED." ∧
    ("OFFLINE. CHAPTER MISSING." : String) ≠ "NETWORK REQUIRED FOR SYNC." := by
  have h1 : handleOpenReader s novelId chapterId f q =
      { state := { s with toasts := s.toasts ++
          [⟨"OFFLINE. CHAPTER MISSING.", ToastType.error⟩] },
        fetchCalled := false, opened := false } := by
    unfold handleOpenReader
    rw [hfind]
    simp only [hne, if_false, ite_false, if_neg, htgt]
    unfold openChapter
    simp [hmiss, hoff]
  rw [h1]
  exact ⟨rfl, rfl, rfl, rfl, rfl, rfl, rfl, by decide, by decide⟩

/-- Claim C3: for a (novel, chapter) whose text is cached (present and
nonempty), handleOpenReader returns the cached text, opens the reader, leaves
the store unchanged and never invokes the provider fetch, regardless of the
connectivity flag; likewise handleDownloadChapter succeeds without fetching
and without touching the store. -/
theorem claim3_cache_hit_no_fetch (s : AppState) (novelId : String)
    (chapterId : Option String) (novel : LibraryItem)
    (target : ChapterMetadata) (f : Except Unit String) (q : Bool) (c : String)
    (hfind : s.library.find? (fun n => n.id == novelId) = some novel)
    (hne : novel.chapters.length ≠ 0)
    (htgt : resolveTarget novel chapterId = some target)
    (hcache : kvGet s.store (contentKey novel.id target.chapterNumber) = some c)
    (hc : c ≠ "") :
    ((handleOpenReader s novelId chapterId f q).fetchCalled = false ∧
     (handleOpenReader s novelId chapterId f q).opened = true ∧
     (handleOpenReader s novelId chapterId f q).state.activeChapterContent = c ∧
     (handleOpenReader s novelId chapterId f q).state.view = ViewState.reader ∧
     (handleOpenReader s novelId chapterId f q).state.store = s.store) ∧
    (∀ silent : Bool,
     (handleDownloadChapter s.store novel target silent f q).fetchCalled =
       false ∧
     (handleDownloadChapter s.store novel target silent f q).success = true ∧
     (handleDownloadChapter s.store novel target silent f q).store =
       s.store) := by
  have htruthy : truthyOpt
      (kvGet s.store (contentKey novel.id target.chapterNumber)) = true := by
    rw [hcache]
    simpa [truthyOpt] using hc
  constructor
  · have h1 : handleOpenReader s novelId chapterId f q =
        { state := finishOpen s novel target c,
          fetchCalled := false, opened := true } := by
      unfold handleOpenReader
      rw [hfind]
      simp only [hne, if_false, ite_false, if_neg, htgt]
      unfold openChapter
      have htc : truthyOpt (some c) = true := by simpa [truthyOpt] using hc
      simp [hcache, htc]
    rw [h1]
    exact ⟨rfl, rfl, rfl, rfl, rfl⟩
  · intro silent
    have h2 : handleDownloadChapter s.store novel target silent f q =
        { success := true, store := s.store, toasts := [],
          fetchCalled := false } := by
      unfold handleDownloadChapter
      simp [htruthy]
    rw [h2]
    exact ⟨rfl, rfl, rfl⟩

/-- Claim C1 counterexample: at a concrete online state with an uncached
chapter, a successful fetch of "FRESH TEXT" followed by a QuotaExceeded write
does surface the storage-full notification and leaves no cache entry, but the
freshly fetched text is NOT delivered to the caller: the open is aborted
(opened is false, the reader view is not entered, the reader content is not
set to the fetched text), contradicting the claim. -/
theorem claim1_quota_counterexample :
    (handleOpenReader sampleState "n1" (some "1")
        (Except.ok "FRESH TEXT") true).opened = false ∧
    (handleOpenReader sampleState "n1" (some "1")
        (Except.ok "FRESH TEXT") true).state.view ≠ ViewState.reader ∧
    (handleOpenReader sampleState "n1" (some "1")
        (Except.ok "FRESH TEXT") true).state.activeChapterContent ≠
      "FRESH TEXT" ∧
    (⟨"STORAGE FULL. CLEAR CACHE.", ToastType.error⟩ : Toast) ∈
      (handleOpenReader sampleState "n1" (some "1")
        (Except.ok "FRESH TEXT") true).state.toasts ∧
    kvGet (handleOpenReader sampleState "n1" (some "1")
        (Except.ok "FRESH TEXT") true).state.store (contentKey "n1" 1) =
      none := by
  decide

/-- Claim C1 as amended: when the device is online, the chapter is uncached,
the provider fetch succeeds and the cache write fails with QuotaExceeded, the
open-chapter operation surfaces the storage-full notification and a
subsequent hasChapter check still fails (no partial entry, store unchanged),
but the freshly fetched text is NOT returned to the caller: the operation
aborts without opening the reader and without touching the library or the
reading state. -/
theorem claim1_quota_amended (s : AppState) (novelId : String)
    (chapterId : Option String) (novel : LibraryItem)
    (target : ChapterMetadata) (content : String)
    (hon : s.isOnline = true)
    (hfind : s.library.find? (fun n => n.id == novelId) = some novel)
    (hne : novel.chapters.length ≠ 0)
    (htgt : resolveTarget novel chapterId = some target)
    (hmiss : truthyOpt
      (kvGet s.store (contentKey novel.id target.chapterNumber)) = false) :
    (handleOpenReader s novelId chapterId (Except.ok content) true).opened =
      false ∧
    (handleOpenReader s novelId chapterId (Except.ok content)
      true).fetchCalled = true ∧
    (handleOpenReader s novelId chapterId (Except.ok content)
      true).state.view = s.view ∧
    (handleOpenReader s novelId chapterId (Except.ok content)
      true).state.store = s.store ∧
    truthyOpt (kvGet
      (handleOpenReader s novelId chapterId (Except.ok content)
        true).state.store
      (contentKey novel.id target.chapterNumber)) = false ∧
    (handleOpenReader s novelId chapterId (Except.ok content)
      true).state.library = s.library ∧
    (handleOpenReader s novelId chapterId (Except.ok content)
      true).state.activeChapterContent = s.activeChapterContent ∧
    (handleOpenReader s novelId chapterId (Except.ok content)
      true).state.toasts = s.toasts ++
        [⟨"DOWNLOADING CHAPTER " ++ toString target.chapterNumber ++ "...",
          ToastType.loading⟩,
         ⟨"STORAGE FULL. CLEAR CACHE.", ToastType.error⟩] := by
  have hdl : handleDownloadChapter s.store novel target false
      (Except.ok content) true =
      { success := false, store := s.store,
        toasts := [⟨"DOWNLOADING CHAPTER " ++
            toString target.chapterNumber ++ "...", ToastType.loading⟩,
          ⟨"STORAGE FULL. CLEAR CACHE.", ToastType.error⟩],
        fetchCalled := true } := by
    unfold handleDownloadChapter
    simp [hmiss]
  have h1 : handleOpenReader s novelId chapterId (Except.ok content) true =
      { state := { s with toasts := s.toasts ++
          [⟨"DOWNLOADING CHAPTER " ++ toString target.chapterNumber ++ "...",
            ToastType.loading⟩,
           ⟨"STORAGE FULL. CLEAR CACHE.", ToastType.error⟩] },
        fetchCalled := true, opened := false } := by
    unfold handleOpenReader
    rw [hfind]
    simp only [hne, if_false, ite_false, if_neg, htgt]
    unfold openChapter
    simp [hmiss, hon, hdl]
  rw [h1]
  exact ⟨rfl, rfl, rfl, rfl, hmiss, rfl, rfl, rfl⟩

/-- Claim C4: installing a novel (online, chapter list fetched) leaves the
library with the freshly built item at the head, any previous item with the
same id removed, exactly one item carrying that id, and id-uniqueness of the
whole collection preserved. -/
theorem claim4_unique_ids (s : AppState) (novel : Novel) (now : Nat)
    (chapters : List ChapterMetadata) (f : Except Unit String) (q : Bool)
    (hon : s.isOnline = true) :
    (handleAddToLibrary s novel now (Except.ok chapters) f q).state.library =
      mkLibraryItem novel chapters now ::
        s.library.filter (fun n => n.id != novel.id) ∧
    ((handleAddToLibrary s novel now (Except.ok chapters) f
        q).state.library.countP (fun n => n.id == novel.id)) = 1 ∧
    (handleAddToLibrary s novel now (Except.ok chapters)
        f q).state.library.head? = some (mkLibraryItem novel chapters now) ∧
    (mkLibraryItem novel chapters now).chapters = chapters ∧
    ((s.library.map (fun n => n.id)).Nodup →
      ((handleAddToLibrary s novel now (Except.ok chapters) f
        q).state.library.map (fun n => n.id)).Nodup) := by
  have hlib : (handleAddToLibrary s novel now (Except.ok chapters) f
      q).state.library = mkLibraryItem novel chapters now ::
        s.library.filter (fun n => n.id != novel.id) := by
    unfold handleAddToLibrary
    cases chapters with
    | nil => simp [hon]
    | cons c0 t => simp [hon]
  have hzero : (s.library.filter (fun n => n.id != novel.id)).countP
      (fun n => n.id == novel.id) = 0 := by
    rw [List.countP_eq_zero]
    intro a ha
    have h2 := (List.mem_filter.mp ha).2
    simp only [bne_iff_ne, ne_eq] at h2
    simp [h2]
  refine ⟨hlib, ?_, ?_, rfl, ?_⟩
  · rw [hlib, List.countP_cons]
    have hid : (mkLibraryItem novel chapters now).id == novel.id := by
      simp [mkLibraryItem]
    simp [hzero, hid]
  · rw [hlib]; rfl
  · intro hnd
    rw [hlib]
    simp only [List.map_cons, List.nodup_cons]
    constructor
    · intro hmem
      obtain ⟨a, ha, haid⟩ := List.mem_map.mp hmem
      have h2 := (List.mem_filter.mp ha).2
      simp only [bne_iff_ne, ne_eq] at h2
      exact h2 haid
    · exact ((List.filter_sublist s.library).map (fun n => n.id)).nodup hnd

/-- Claim C6: install is atomic for the library.  If the chapter-list fetch
fails, the failure is surfaced and the library and store are unchanged; on
success the new item has lastReadChapterId equal to the first chapter's id
and totalChapters equal to the list length, and the resulting library does
not depend on the outcome of the best-effort first-chapter download (f, q are
arbitrary, covering its failure). -/
theorem claim6_install_atomic (s : AppState) (novel : Novel) (now : Nat)
    (f : Except Unit String) (q : Bool) (hon : s.isOnline = true) :
    ((handleAddToLibrary s novel now (Except.error ()) f q).state.library =
      s.library ∧
     (handleAddToLibrary s novel now (Except.error ()) f q).state.store =
      s.store ∧
     (handleAddToLibrary s novel now (Except.error ()) f q).fetchCalled =
      false ∧
     (handleAddToLibrary s novel now (Except.error ()) f q).state.toasts =
      s.toasts ++ [⟨"SYNCING METADATA...", ToastType.loading⟩,
        ⟨"SYNC FAILED. CHECK CONNECTION.", ToastType.error⟩]) ∧
    (∀ chapters : List ChapterMetadata,
      (handleAddToLibrary s novel now (Except.ok chapters) f
        q).state.library = mkLibraryItem novel chapters now ::
          s.library.filter (fun n => n.id != novel.id) ∧
      (mkLibraryItem novel chapters now).lastReadChapterId =
        chapters.head?.map (fun c => c.id) ∧
      (mkLibraryItem novel chapters now).totalChapters = chapters.length ∧
      (mkLibraryItem novel chapters now).chapters = chapters) := by
  constructor
  · have herr : handleAddToLibrary s novel now (Except.error ()) f q =
        { state := { s with toasts := s.toasts ++
            [⟨"SYNCING METADATA...", ToastType.loading⟩,
             ⟨"SYNC FAILED. CHECK CONNECTION.", ToastType.error⟩] },
          fetchCalled := false } := by
      unfold handleAddToLibrary
      simp [hon]
    rw [herr]
    exact ⟨rfl, rfl, rfl, rfl⟩
  · intro chapters
    have hlib : (handleAddToLibrary s novel now (Except.ok chapters) f
        q).state.library = mkLibraryItem novel chapters now ::
          s.library.filter (fun n => n.id != novel.id) := by
      unfold handleAddToLibrary
      cases chapters with
      | nil => simp [hon]
      | cons c0 t => simp [hon]
    exact ⟨hlib, rfl, rfl, rfl⟩

/-- Claim C5: deleting a library item removes its id from the library and
leaves no cached chapter text, image or scroll entry for any chapter it
owns. -/
theorem claim5_delete_total (s : AppState) (id : String)
    (novel : LibraryItem)
    (hfind : s.library.find? (fun n => n.id == id) = some novel) :
    (∀ n ∈ (deleteFromLibrary s id true).library, n.id ≠ id) ∧
    (∀ ch ∈ novel.chapters,
      kvGet (deleteFromLibrary s id true).store
        (contentKey id ch.chapterNumber) = none ∧
      kvGet (deleteFromLibrary s id true).store
        (imgKey id ch.chapterNumber) = none ∧
      kvGet (deleteFromLibrary s id true).store
        (scrollKey id ch.chapterNumber) = none) := by
  have hst : (deleteFromLibrary s id true).store =
      novel.chapters.foldl (fun st ch => purgeChapterKeys st id ch)
        s.store := by
    unfold deleteFromLibrary
    simp [hfind]
  have hlib : (deleteFromLibrary s id true).library =
      s.library.filter (fun n => n.id != id) := by
    unfold deleteFromLibrary
    simp [hfind]
  constructor
  · intro n hn
    rw [hlib] at hn
    have h2 := (List.mem_filter.mp hn).2
    simpa [bne_iff_ne] using h2
  · intro ch hch
    rw [hst]
    obtain ⟨h1, h2, h3⟩ := purgeFold_removes novel.chapters s.store id ch hch
    exact ⟨h1, h3, h2⟩

/-- Claim C7: when the current chapter is the last of the item's sequence,
next-navigation emits the end-of-content info signal and changes nothing (in
particular the library, hence lastReadChapterId, is untouched); when it is
the first, previous-navigation emits the start-of-content info signal and
changes nothing. -/
theorem claim7_navigation_boundaries (s : AppState) (nid cid : String)
    (novel : LibraryItem) (f : Except Unit String) (q : Bool)
    (hnid : s.activeNovelId = some nid)
    (hfind : s.library.find? (fun n => n.id == nid) = some novel)
    (hcid : s.activeChapterId = some cid)
    (hc : cid ≠ "") :
    (novel.chapters.findIdx? (fun c => c.id == cid) =
        some (novel.chapters.length - 1) →
      (handleNextChapter s f q).state.library = s.library ∧
      (handleNextChapter s f q).state.view = s.view ∧
      (handleNextChapter s f q).state.store = s.store ∧
      (handleNextChapter s f q).opened = false ∧
      (handleNextChapter s f q).fetchCalled = false ∧
      (handleNextChapter s f q).state.activeChapterId = s.activeChapterId ∧
      (handleNextChapter s f q).state.toasts =
        s.toasts ++ [⟨"END OF RECORD REACHED.", ToastType.info⟩]) ∧
    (novel.chapters.findIdx? (fun c => c.id == cid) = some 0 →
      (handlePrevChapter s f q).state.library = s.library ∧
      (handlePrevChapter s f q).state.view = s.view ∧
      (handlePrevChapter s f q).state.store = s.store ∧
      (handlePrevChapter s f q).opened = false ∧
      (handlePrevChapter s f q).fetchCalled = false ∧
      (handlePrevChapter s f q).state.activeChapterId = s.activeChapterId ∧
      (handlePrevChapter s f q).state.toasts =
        s.toasts ++ [⟨"START OF RECORD.", ToastType.info⟩]) := by
  have htr : truthyOpt (some cid) = true := by
    simpa [truthyOpt] using hc
  constructor
  · intro hidx
    have h1 : handleNextChapter s f q =
        { state := { s with toasts := s.toasts ++
            [⟨"END OF RECORD REACHED.", ToastType.info⟩] },
          fetchCalled := false, opened := false } := by
      unfold handleNextChapter
      rw [hnid]
      simp only [hfind, htr, hcid, Option.getD_some]
      rw [hidx]
      simp
    rw [h1]
    exact ⟨rfl, rfl, rfl, rfl, rfl, rfl, rfl⟩
  · intro hidx
    have h1 : handlePrevChapter s f q =
        { state := { s with toasts := s.toasts ++
            [⟨"START OF RECORD.", ToastType.info⟩] },
          fetchCalled := false, opened := false } := by
      unfold handlePrevChapter
      rw [hnid]
      simp only [hfind, htr, hcid, Option.getD_some]
      rw [hidx]
      simp
    rw [h1]
    exact ⟨rfl, rfl, rfl, rfl, rfl, rfl, rfl⟩

/-- Case analysis of the library after openChapter: if the final content
block ran, the found item, with only lastReadChapterId rewritten, has moved
to the head and every other item is kept (in order) by the filter; otherwise
the library is untouched. -/
theorem openChapter_library_cases (s : AppState) (novel : LibraryItem)
    (target : ChapterMetadata) (f : Except Unit String) (q : Bool) :
    ((openChapter s novel target f q).opened = true →
      (openChapter s novel target f q).state.library =
        { novel with lastReadChapterId := some target.id } ::
          s.library.filter (fun n => n.id != novel.id)) ∧
    ((openChapter s novel target f q).opened = false →
      (openChapter s novel target f q).state.library = s.library) := by
  simp only [openChapter, finishOpen]
  split
  · exact ⟨fun _ => rfl, fun h => by simp at h⟩
  · split
    · split
      · split
        · exact ⟨fun _ => rfl, fun h => by simp at h⟩
        · exact ⟨fun h => by simp at h, fun _ => rfl⟩
      · exact ⟨fun h => by simp at h, fun _ => rfl⟩
    · exact ⟨fun h => by simp at h, fun _ => rfl⟩

/-- Claim C9: the last-read update performed by handleOpenReader.  If no item
with the requested id is in the library, the library is left unchanged; if
the item is found and the open succeeds, the only field of the item that
changes is lastReadChapterId (every other field of the rewritten item is
identically the old one), the other items are exactly the old ones, and if
the open does not complete the library is unchanged. -/
theorem claim9_markread_frame (s : AppState) (novelId : String)
    (chapterId : Option String) (f : Except Unit String) (q : Bool) :
    (s.library.find? (fun n => n.id == novelId) = none →
      (handleOpenReader s novelId chapterId f q).state.library = s.library) ∧
    (∀ (novel : LibraryItem) (target : ChapterMetadata),
      s.library.find? (fun n => n.id == novelId) = some novel →
      novel.chapters.length ≠ 0 →
      resolveTarget novel chapterId = some target →
      ((handleOpenReader s novelId chapterId f q).opened = true →
        (handleOpenReader s novelId chapterId f q).state.library =
          { novel with lastReadChapterId := some target.id } ::
            s.library.filter (fun n => n.id != novel.id)) ∧
      ((handleOpenReader s novelId chapterId f q).opened = false →
        (handleOpenReader s novelId chapterId f q).state.library =
          s.library) ∧
      ({ novel with lastReadChapterId := some target.id } :
          LibraryItem).id = novel.id ∧
      ({ novel with lastReadChapterId := some target.id } :
          LibraryItem).title = novel.title ∧
      ({ novel with lastReadChapterId := some target.id } :
          LibraryItem).author = novel.author ∧
      ({ novel with lastReadChapterId := some target.id } :
          LibraryItem).description = novel.description ∧
      ({ novel with lastReadChapterId := some target.id } :
          LibraryItem).coverUrl = novel.coverUrl ∧
      ({ novel with lastReadChapterId := some target.id } :
          LibraryItem).tags = novel.tags ∧
      ({ novel with lastReadChapterId := some target.id } :
          LibraryItem).status = novel.status ∧
      ({ novel with lastReadChapterId := some target.id } :
          LibraryItem).downloaded = novel.downloaded ∧
      ({ novel with lastReadChapterId := some target.id } :
          LibraryItem).totalChapters = novel.totalChapters ∧
      ({ novel with lastReadChapterId := some target.id } :
          LibraryItem).savedAt = novel.savedAt ∧
      ({ novel with lastReadChapterId := some target.id } :
          LibraryItem).chapters = novel.chapters) := by
  constructor
  · intro hnone
    unfold handleOpenReader
    rw [hnone]
    rfl
  · intro novel target hfind hne htgt
    have hred : handleOpenReader s novelId chapterId f q =
        openChapter s novel target f q := by
      unfold handleOpenReader
      rw [hfind]
      simp only [hne, if_false, ite_false, if_neg, htgt]
    rw [hred]
    obtain ⟨h1, h2⟩ := openChapter_library_cases s novel target f q
    exact ⟨h1, h2, rfl, rfl, rfl, rfl, rfl, rfl, rfl, rfl, rfl, rfl, rfl⟩

/-- Claim C10: installing a novel whose fetched chapter list is empty still
succeeds, producing a head item with no chapters, totalChapters zero and
lastReadChapterId unset, skips the best-effort first-chapter download, and
any later open of the item fails (corrupted-or-empty exit) without invoking
a fetch, without opening the reader and without mutating the library or the
store. -/
theorem claim10_empty_install (s : AppState) (novel : Novel) (now : Nat)
    (f : Except Unit String) (q : Bool) (hon : s.isOnline = true) :
    (handleAddToLibrary s novel now (Except.ok []) f q).fetchCalled = false ∧
    (handleAddToLibrary s novel now (Except.ok []) f q).state.library =
      mkLibraryItem novel [] now ::
        s.library.filter (fun n => n.id != novel.id) ∧
    (mkLibraryItem novel [] now).chapters = [] ∧
    (mkLibraryItem novel [] now).totalChapters = 0 ∧
    (mkLibraryItem novel [] now).lastReadChapterId = none ∧
    (∀ (cid : Option String) (f2 : Except Unit String) (q2 : Bool),
      (handleOpenReader (handleAddToLibrary s novel now (Except.ok []) f
          q).state novel.id cid f2 q2).opened = false ∧
      (handleOpenReader (handleAddToLibrary s novel now (Except.ok []) f
          q).state novel.id cid f2 q2).fetchCalled = false ∧
      (handleOpenReader (handleAddToLibrary s novel now (Except.ok []) f
          q).state novel.id cid f2 q2).state.view =
        (handleAddToLibrary s novel now (Except.ok []) f q).state.view ∧
      (handleOpenReader (handleAddToLibrary s novel now (Except.ok []) f
          q).state novel.id cid f2 q2).state.library =
        (handleAddToLibrary s novel now (Except.ok []) f q).state.library ∧
      (handleOpenReader (handleAddToLibrary s novel now (Except.ok []) f
          q).state novel.id cid f2 q2).state.store =
        (handleAddToLibrary s novel now (Except.ok []) f q).state.store) := by
  have hs1 : handleAddToLibrary s novel now (Except.ok []) f q =
      { state := { s with
          library := mkLibraryItem novel [] now ::
            s.library.filter (fun n => n.id != novel.id),
          toasts := s.toasts ++ [⟨"SYNCING METADATA...", ToastType.loading⟩,
            ⟨"NOVEL ADDED TO DATABASE.", ToastType.success⟩] },
        fetchCalled := false } := by
    unfold handleAddToLibrary
    simp [hon]
  rw [hs1]
  refine ⟨rfl, rfl, rfl, rfl, rfl, ?_⟩
  intro cid f2 q2
  have hfind : (mkLibraryItem novel [] now ::
      s.library.filter (fun n => n.id != novel.id)).find?
        (fun n => n.id == novel.id) = some (mkLibraryItem novel [] now) :=
    List.find?_cons_of_pos _ (by simp [mkLibraryItem])
  have hopen : ∀ (st : AppState),
      st.library = mkLibraryItem novel [] now ::
        s.library.filter (fun n => n.id != novel.id) →
      handleOpenReader st novel.id cid f2 q2 =
        { state := corruptedExit st, fetchCalled := false,
          opened := false } := by
    intro st hst
    unfold handleOpenReader
    rw [hst, hfind]
    simp [mkLibraryItem]
  rw [hopen _ rfl]
  exact ⟨rfl, rfl, rfl, rfl, rfl⟩

/-- Dropping a whitespace run never lengthens a character list. -/
theorem length_dropWhile_ws_le (p : Char → Bool) (l : List Char) :
    (l.dropWhile p).length ≤ l.length := by
  induction l with
  | nil => simp
  | cons a t ih =>
      by_cases h : p a
      · simp only [List.dropWhile_cons, h, if_true]
        exact le_trans ih (Nat.le_succ _)
      · simp [List.dropWhile_cons, h]

/-- The leading-fence strip never lengthens the text. -/
theorem stripLeadingFence_length_le (cs : List Char) :
    (stripLeadingFence cs).length ≤ cs.length := by
  have key : ∀ (l : List Char) (n : Nat),
      ((l.drop n).dropWhile (fun c => c.isWhitespace)).length ≤ l.length := by
    intro l n
    have h1 := length_dropWhile_ws_le (fun c => c.isWhitespace) (l.drop n)
    have h2 : (l.drop n).length = l.length - n := List.length_drop n l
    omega
  rcases cs with _ | ⟨c1, cs2⟩
  · simp [stripLeadingFence]
  rcases cs2 with _ | ⟨c2, cs3⟩
  · simp [stripLeadingFence]
  rcases cs3 with _ | ⟨c3, rest⟩
  · simp [stripLeadingFence]
  simp only [stripLeadingFence]
  split
  · split
    · have := key rest 8
      simp only [List.length_cons]
      omega
    · split
      · have := key rest 2
        simp only [List.length_cons]
        omega
      · have := key rest 0
        simp only [List.drop_zero] at this
        simp only [List.length_cons]
        omega
  · exact le_refl _

/-- The trailing-fence strip never lengthens the (reversed) text. -/
theorem stripTrailingFenceRev_length_le (r : List Char) :
    (stripTrailingFenceRev r).length ≤ r.length := by
  rcases r with _ | ⟨c1, r2⟩
  · simp [stripTrailingFenceRev]
  rcases r2 with _ | ⟨c2, r3⟩
  · simp [stripTrailingFenceRev]
  rcases r3 with _ | ⟨c3, rest⟩
  · simp [stripTrailingFenceRev]
  simp only [stripTrailingFenceRev]
  split
  · have := length_dropWhile_ws_le (fun c => c.isWhitespace) rest
    simp only [List.length_cons]
    omega
  · exact le_refl _

/-- Stripping the markdown fences never lengthens the text. -/
theorem stripCodeFences_length_le (s : String) :
    (stripCodeFences s).length ≤ s.length := by
  show (stripTrailingFenceRev
      (stripLeadingFence s.data).reverse).reverse.length ≤ s.data.length
  rw [List.length_reverse]
  calc (stripTrailingFenceRev (stripLeadingFence s.data).reverse).length
      ≤ (stripLeadingFence s.data).reverse.length :=
        stripTrailingFenceRev_length_le _
    _ = (stripLeadingFence s.data).length := List.length_reverse _
    _ ≤ s.data.length := stripLeadingFence_length_le _

/-- Claim C8: with a credential configured, the chapter-text fetch rejects a
response whose text is below the 100-character plausibility minimum (in
particular an empty or missing one) with the generation-failure error, and
any successfully returned string is nonempty and at least 100 characters
long. -/
theorem claim8_min_length (apiKey : String) (novelTitle : String)
    (chapterNumber : Nat) (chapterTitle : String) (respText : Option String) :
    (∀ t : String, downloadChapterContent (some apiKey) novelTitle
        chapterNumber chapterTitle respText = Except.ok t →
      100 ≤ t.length ∧ t ≠ "") ∧
    ((respText.getD "").length < 100 →
      downloadChapterContent (some apiKey) novelTitle chapterNumber
        chapterTitle respText =
        Except.error "Generated content too short or empty.") := by
  constructor
  · intro t ht
    simp only [downloadChapterContent] at ht
    by_cases hcond : stripCodeFences (respText.getD "") = "" ∨
        (stripCodeFences (respText.getD "")).length < 100
    · rw [if_pos hcond] at ht
      cases ht
    · rw [if_neg hcond] at ht
      cases ht
      push_neg at hcond
      exact ⟨hcond.2, hcond.1⟩
  · intro hlen
    have hshort : (stripCodeFences (respText.getD "")).length < 100 :=
      lt_of_le_of_lt (stripCodeFences_length_le _) hlen
    simp only [downloadChapterContent]
    rw [if_pos (Or.inr hshort)]

/-- Witness for claim2_offline_missing: the concrete offline state with an
uncached chapter yields exactly the offline-missing notification. -/
theorem claim2_offline_missing_witness :
    (handleOpenReader sampleOffState "n1" (some "1") (Except.error ())
        false).state.toasts = sampleOffState.toasts ++
      [⟨"OFFLINE. CHAPTER MISSING.", ToastType.error⟩] :=
  (claim2_offline_missing sampleOffState "n1" (some "1") sampleItem
    sampleChapter (Except.error ()) false (by decide) (by decide) (by decide)
    (by decide) (by decide)).2.2.2.2.2.2.1

/-- Witness for claim3_cache_hit_no_fetch: opening a concretely cached
chapter yields the cached text. -/
theorem claim3_cache_hit_no_fetch_witness :
    (handleOpenReader sampleCachedState "n1" (some "1") (Except.error ())
        false).state.activeChapterContent = "CACHED TEXT" :=
  (claim3_cache_hit_no_fetch sampleCachedState "n1" (some "1") sampleItem
    sampleChapter (Except.error ()) false "CACHED TEXT" (by decide)
    (by decide) (by decide) (by decide) (by decide)).1.2.2.1

/-- Witness for claim1_quota_amended: the concrete quota failure aborts the
open. -/
theorem claim1_quota_amended_witness :
    (handleOpenReader sampleState "n1" (some "1") (Except.ok "FRESH TEXT")
        true).opened = false :=
  (claim1_quota_amended sampleState "n1" (some "1") sampleItem sampleChapter
    "FRESH TEXT" (by decide) (by decide) (by decide) (by decide)
    (by decide)).1

/-- Witness for claim4_unique_ids: reinstalling the sample novel leaves
exactly one item with its id. -/
theorem claim4_unique_ids_witness :
    ((handleAddToLibrary sampleState sampleNovel 7
        (Except.ok [sampleChapter]) (Except.error ())
        false).state.library.countP (fun n => n.id == sampleNovel.id)) = 1 :=
  (claim4_unique_ids sampleState sampleNovel 7 [sampleChapter]
    (Except.error ()) false (by decide)).2.1

/-- Witness for claim5_delete_total: after the concrete delete, the cached
chapter text is gone. -/
theorem claim5_delete_total_witness :
    kvGet (deleteFromLibrary sampleLoadedState "n1" true).store
      (contentKey "n1" 1) = none :=
  ((claim5_delete_total sampleLoadedState "n1" sampleItem (by decide)).2
    sampleChapter (by decide)).1

/-- Witness for claim6_install_atomic: a failing chapter-list fetch leaves
the concrete library unchanged. -/
theorem claim6_install_atomic_witness :
    (handleAddToLibrary sampleState sampleNovel 7 (Except.error ())
        (Except.error ()) false).state.library = sampleState.library :=
  ((claim6_install_atomic sampleState sampleNovel 7 (Except.error ()) false
    (by decide)).1).1

/-- Witness for claim7_navigation_boundaries: next-navigation at the last
chapter of the concrete state emits the end-of-content signal. -/
theorem claim7_navigation_boundaries_witness :
    (handleNextChapter sampleReadState (Except.error ())
        false).state.toasts = sampleReadState.toasts ++
      [⟨"END OF RECORD REACHED.", ToastType.info⟩] :=
  ((claim7_navigation_boundaries sampleReadState "n1" "1" sampleItem
    (Except.error ()) false (by decide) (by decide) (by decide)
    (by decide)).1 (by decide)).2.2.2.2.2.2

/-- Witness for claim9_markread_frame: the concrete successful open rewrites
only lastReadChapterId and moves the item to the head. -/
theorem claim9_markread_frame_witness :
    (handleOpenReader sampleCachedState "n1" (some "1") (Except.error ())
        false).state.library =
      { sampleItem with lastReadChapterId := some sampleChapter.id } ::
        sampleCachedState.library.filter (fun n => n.id != sampleItem.id) :=
  (((claim9_markread_frame sampleCachedState "n1" (some "1")
      (Except.error ()) false).2 sampleItem sampleChapter (by decide)
      (by decide) (by decide)).1) (by decide)

/-- Witness for claim10_empty_install: the concrete empty-list install skips
the first-chapter download. -/
theorem claim10_empty_install_witness :
    (handleAddToLibrary sampleState sampleNovel 9 (Except.ok [])
        (Except.error ()) false).fetchCalled = false :=
  (claim10_empty_install sampleState sampleNovel 9 (Except.error ()) false
    (by decide)).1

/-- Witness for claim8_min_length: a concrete two-character response is
rejected as a generation failure. -/
theorem claim8_min_length_witness :
    downloadChapterContent (some "key") "Solo Leveling" 1 "Prologue"
      (some "hi") = Except.error "Generated content too short or empty." :=
  (claim8_min_length "key" "Solo Leveling" 1 "Prologue" (some "hi")).2
    (by decide)

end Ranobe
